import Mathlib

/-!
Shallow embedding of the environment-resolution and synchronization core of
`uv` (crates/uv/src/commands/project/mod.rs and crates/uv/src/commands/tool/run.rs).

External collaborators (resolver, installer, registry client, interpreter
discovery, filesystem) are modelled as oracle fields of explicit "world"
structures; every embedded function returns its result together with a trace
of the collaborator calls and user-visible effects it performed, in order.
Each definition mirrors the control flow of the corresponding Rust function.
-/

namespace Uv

/-- A PEP 440 version, kept as its display string (the embedding never needs
its internal structure). -/
abbrev Version := String

/-- Model of `uv_python::Interpreter`: immutable handle to one Python installation. -/
structure Interpreter where
  pythonVersion : Version
  sysExecutable : String
deriving DecidableEq, Repr

/-- Model of `uv_python::PythonEnvironment`: a virtual environment rooted at a path,
owning an interpreter and exposing its script directory and site-packages
directories. -/
structure PythonEnvironment where
  interpreter : Interpreter
  scripts : String
  sitePackagesDirs : List String
deriving DecidableEq, Repr

/-- Model of `uv_python::PythonRequest`. The `versionRange` constructor is the
`PythonRequest::Version(VersionRequest::Range(specifiers))` form built from a
project's `Requires-Python`; every other request form is abstracted by a tag. -/
inductive PythonRequest
  | versionRange (specifiers : String)
  | other (tag : Nat)
deriving DecidableEq, Repr

/-- Model of `uv_resolver::RequiresPython`: the project's declared `Requires-Python`
range, with its specifier display string and a decidable version-membership
test (`RequiresPython::contains`). -/
structure RequiresPython where
  specifiers : String
  containsVersion : Version → Bool

/-- Model of `pypi_types::Requirement` after name resolution: the canonical package
name plus an abstract payload distinguishing otherwise-equal requirements. -/
structure Requirement where
  name : String
  payload : Nat
deriving DecidableEq, Repr

/-- Model of `uv_installer::SatisfiesResult`: outcome of checking a requirement set
against an environment's installed distributions. -/
inductive SatisfiesResult
  | fresh (recursive_requirements : List Requirement)
  | unsatisfied (requirement : String)
deriving DecidableEq, Repr

/-- Model of `uv_installer::SitePackages`: a snapshot of the installed distributions of
one environment, exposed through the two queries the embedded code makes of
it: `satisfies` (transitive satisfaction check, fallible) and `get_packages`
(installed distributions of one package, as name/version pairs). -/
structure SitePackages where
  satisfies : List Requirement → List Requirement → Except String SatisfiesResult
  get_packages : String → List (String × String)

/-- Model of `std::ffi::OsString`: either valid UTF-8 text or an abstract non-UTF-8
value distinguished by a tag. -/
inductive OsStr
  | utf8 (s : String)
  | nonUtf8 (tag : Nat)
deriving DecidableEq, Repr

/-- Model of `OsStr::to_str`: `some` exactly on valid UTF-8. -/
def OsStr.toStr : OsStr → Option String
  | .utf8 s => some s
  | .nonUtf8 _ => none

/-- Model of `OsStr::to_string_lossy` (the lossy text of a non-UTF-8 value is abstract). -/
def OsStr.lossy : OsStr → String
  | .utf8 s => s
  | .nonUtf8 _ => "\xef\xbf\xbd"

/-- Split a character list at the first occurrence of `c`. -/
def splitOnceChars (c : Char) : List Char → Option (List Char × List Char)
  | [] => none
  | x :: xs =>
    if x = c then some ([], xs)
    else
      match splitOnceChars c xs with
      | none => none
      | some (pre, post) => some (x :: pre, post)

/-- Rust `str::split_once`: split at the first occurrence of `c`, returning
the text before it and everything after it; `none` when `c` does not occur. -/
def split_once (s : String) (c : Char) : Option (String × String) :=
  match splitOnceChars c s.toList with
  | none => none
  | some (pre, post) => some (String.mk pre, String.mk post)

/-- Split a character list at every occurrence of `c` (Rust `str::split`,
which always yields at least one segment). -/
def splitAllChars (c : Char) : List Char → List (List Char)
  | [] => [[]]
  | x :: xs =>
    match splitAllChars c xs with
    | [] => if x = c then [[], []] else [[x]]
    | h :: t => if x = c then [] :: h :: t else (x :: h) :: t

/-- Error message of `parse_target` on a non-UTF-8 command
(crates/uv/src/commands/tool/run.rs line 411). -/
def utf8ErrorMsg : String :=
  "Tool command could not be parsed as UTF-8 string. Use `--from` to specify the package name."

/-- Model of `parse_target` (crates/uv/src/commands/tool/run.rs lines 409-442): parse a
target into a command name and a requirement string. Parameterized over the
external parsers `PackageName::from_str` (returning the canonical name) and
`Version::from_str` (returning the parsed version's display form), which live
in the `uv-normalize` and `pep440-rs` crates. -/
def parse_target (package_name_from_str : String → Option String)
    (version_from_str : String → Option String) (target : OsStr) :
    Except String (OsStr × String) :=
  match target.toStr with
  | none => .error utf8ErrorMsg
  | some target_str =>
    match split_once target_str '@' with
    -- e.g. `uv`, no special handling
    | none => .ok (target, target_str)
    | some (name, version) =>
      -- e.g. `uv@`, warn and treat the whole thing as the command
      if version = "" then .ok (target, target_str)
      -- e.g. ignore `git+https://github.com/uv/uv.git@main`
      else if (package_name_from_str name).isNone then .ok (target, target_str)
      else
        match version_from_str version with
        -- e.g. `uv@0.1.0`, convert to `uv==0.1.0`
        | some v => .ok (.utf8 name, name ++ "==" ++ v)
        -- e.g. `uv@invalid`, warn and treat the whole thing as the command
        | none => .ok (target, target_str)

/-- Modelled from the spec: package-name validity. `PackageName::from_str`
lives in the `uv-normalize` crate, outside the embedded sources. Per the
spec's examples, `tool` is a valid name while `git+https://x/y.git` is not:
a valid name is nonempty, uses only ASCII letters, digits, `-`, `_` and `.`,
and starts and ends with a letter or digit; parsing returns the name. -/
def specPackageNameFromStr (s : String) : Option String :=
  let cs := s.toList
  if cs ≠ [] && cs.all (fun c => c.isAlphanum || c == '-' || c == '_' || c == '.')
      && cs.head!.isAlphanum && cs.getLast!.isAlphanum
  then some s else none

/-- Modelled from the spec: version validity. `Version::from_str` lives in the
`pep440-rs` crate, outside the embedded sources. Restricted to the plain
release form the spec exercises: one or more dot-separated nonempty numeric
segments (`1.2.3` parses; `not-a-version` and `main` do not); the display
form is the input itself. -/
def specVersionFromStr (s : String) : Option String :=
  let parts := splitAllChars '.' s.toList
  if parts.all (fun p => p ≠ [] && p.all Char.isDigit)
  then some s else none

example : specPackageNameFromStr "tool" = some "tool" := rfl
example : specPackageNameFromStr "git+https://x/y.git" = none := rfl
example : specVersionFromStr "1.2.3" = some "1.2.3" := rfl
example : specVersionFromStr "not-a-version" = none := rfl
example : parse_target specPackageNameFromStr specVersionFromStr (.utf8 "tool@1.2.3")
    = .ok (.utf8 "tool", "tool==1.2.3") := rfl
example : parse_target specPackageNameFromStr specVersionFromStr (.utf8 "tool@")
    = .ok (.utf8 "tool@", "tool@") := rfl
example : parse_target specPackageNameFromStr specVersionFromStr (.utf8 "tool@not-a-version")
    = .ok (.utf8 "tool@not-a-version", "tool@not-a-version") := rfl
example : parse_target specPackageNameFromStr specVersionFromStr
    (.utf8 "git+https://x/y.git@main")
    = .ok (.utf8 "git+https://x/y.git@main", "git+https://x/y.git@main") := rfl

/-- Model of `uv_virtualenv::Prompt`: `Prompt::None` means no prompt customization. -/
inductive VenvPrompt
  | noPrompt
  | custom (s : String)
deriving DecidableEq, Repr

/-- Stdio configuration of one stream of a child process. `tokio::process::Command`
leaves all three streams inherited unless explicitly reconfigured, and the
embedded code never reconfigures them. -/
inductive Stdio
  | inherit
  | piped
  | null
deriving DecidableEq, Repr

/-- The child-process specification built by `run` before spawning: program,
arguments, the two environment variables it sets, and the stream dispositions. -/
structure ProcessSpec where
  program : OsStr
  args : List OsStr
  envPath : List String
  envPythonPath : List String
  stdin : Stdio
  stdout : Stdio
  stderr : Stdio
deriving DecidableEq, Repr

/-- Model of `crate::commands::ExitStatus`. -/
inductive ExitStatus
  | success
  | failure
  | err
deriving DecidableEq, Repr

/-- Model of `uv_configuration::Reinstall`. -/
inductive Reinstall
  | noReinstall
  | all
  | packages (ps : List String)
deriving DecidableEq, Repr

/-- Model of `Reinstall::is_none`. -/
def Reinstall.is_none : Reinstall → Bool
  | .noReinstall => true
  | _ => false

/-- Model of `uv_configuration::Upgrade`. -/
inductive Upgrade
  | noUpgrade
  | all
  | packages (ps : List String)
deriving DecidableEq, Repr

/-- Model of `Upgrade::is_none`. -/
def Upgrade.is_none : Upgrade → Bool
  | .noUpgrade => true
  | _ => false

/-- Model of `uv_requirements::RequirementsSpecification`, restricted to the fields the
embedded code inspects or forwards. -/
structure RequirementsSpecification where
  requirements : List Requirement
  constraints : List Requirement
  overrides : List Requirement
  source_trees : List String
  project : Option String
deriving DecidableEq, Repr

/-- Model of `crate::settings::ResolverInstallerSettings`, restricted to the two fields
whose values the embedded code branches on (`reinstall`, `upgrade`); the
remaining fields are only forwarded to collaborators and are absorbed into
the collaborator oracles of the world structures. -/
structure ResolverInstallerSettings where
  reinstall : Reinstall
  upgrade : Upgrade
deriving DecidableEq, Repr

/-- Model of `distribution_types::Resolution`, abstract: produced by the resolver
oracle and consumed by the installer oracle. -/
structure Resolution where
  tag : Nat
deriving DecidableEq, Repr

/-- Trace of collaborator calls and user-visible effects, recorded in order by
every embedded function. -/
inductive Event
  | querySitePackages
  | satisfiesCheck
  | fetchFlatIndex
  | resolveCall
  | installCall
  | diagnose
  | readVersionFile
  | findEnvironment
  | warnStaleVenv (path : String)
  | findOrFetch (request : Option PythonRequest)
  | usingInterpreterLine (version : Version) (exe : String)
  | removeVenvDir
  | removedLine
  | createVenvCall (interpreter : Interpreter) (prompt : VenvPrompt)
      (system_site_packages : Bool) (allow_existing : Bool)
  | findOrFetchInterpreter
  | resolveFromReq
  | resolveWithReqs
  | acquireToolLock
  | toolLookup (name : String)
  | releaseToolLock
  | debugUsingExistingTool (name : String)
  | cachedEnvGetOrCreate
  | warnExperimental
  | warnExecutableCheck (executable : String) (package : String)
  | spawnProcess (process : ProcessSpec)
  | printNotFound (executable : String)
  | printEntrypoints (package : String) (names : List String)
  | warnEntrypointsFailed
deriving DecidableEq, Repr

/-- Outcome of `find_environment` / `PythonEnvironment::from_root` at the
conventional venv path (crates/uv/src/commands/project/mod.rs lines 113-118),
split into the cases `discover` distinguishes (lines 173-200). -/
inductive FindEnvResult
  | found (venv : PythonEnvironment)
  | missingEnvironment
  | interpreterNotFound (path : String)
  | otherError (e : String)

/-- Model of `ProjectError` (crates/uv/src/commands/project/mod.rs lines 46-94),
restricted to the variants the embedded functions construct; collaborator
errors are carried as strings. -/
inductive ProjectError
  | requestedPythonIncompatibility (version : Version) (requirement : RequiresPython)
  | python (e : String)
  | virtualenv (e : String)
  | io (e : String)
  | requiresPythonError (e : String)

/-- Collaborator oracles of `FoundInterpreter::discover`: the result of
`find_requires_python`, of `request_from_version_file`, of `find_environment`,
the `PythonRequest::satisfied` check, and `PythonInstallation::find_or_fetch`
as a function of the effective request. -/
structure DiscoverWorld where
  findRequiresPython : Except String (Option RequiresPython)
  versionFileRequest : Except String (Option PythonRequest)
  findEnv : FindEnvResult
  requestSatisfied : PythonRequest → Interpreter → Bool
  findOrFetchResult : Option PythonRequest → Except String Interpreter

/-- The effective Python version request (crates/uv/src/commands/project/mod.rs
lines 158-170): (1) the explicit request from the user, else (2) the request
from `.python-version` (whose read is recorded and may fail), else (3) the
project's `Requires-Python` turned into a range request, or no request when
the project declares none. -/
def effective_python_request (w : DiscoverWorld)
    (python_request : Option PythonRequest) (requires_python : Option RequiresPython) :
    Except String (Option PythonRequest) × List Event :=
  match python_request with
  | some request => (.ok (some request), [])
  | none =>
    match w.versionFileRequest with
    | .error e => (.error e, [.readVersionFile])
    | .ok (some request) => (.ok (some request), [.readVersionFile])
    | .ok none =>
      (.ok (requires_python.map fun rp => PythonRequest.versionRange rp.specifiers),
        [.readVersionFile])

/-- Model of `interpreter_meets_requirements` (crates/uv/src/commands/project/mod.rs
lines 121-136): vacuously true when there is no request. -/
def interpreter_meets_requirements (w : DiscoverWorld) (interpreter : Interpreter)
    (requested_python : Option PythonRequest) : Bool :=
  match requested_python with
  | none => true
  | some request => w.requestSatisfied request interpreter

/-- Model of `FoundInterpreter` (crates/uv/src/commands/project/mod.rs lines 138-142). -/
inductive FoundInterpreter
  | interpreter (i : Interpreter)
  | environment (e : PythonEnvironment)

/-- Model of `FoundInterpreter::discover` (crates/uv/src/commands/project/mod.rs lines
146-238): compute the effective request, probe the conventional venv path and
return the environment if it satisfies both the effective request and the
project requirement, otherwise find-or-fetch an interpreter, print the status
line, and re-validate the fetched interpreter against `Requires-Python`. -/
def FoundInterpreter.discover (w : DiscoverWorld) (python_request : Option PythonRequest) :
    Except ProjectError FoundInterpreter × List Event :=
  match w.findRequiresPython with
  | .error e => (.error (.requiresPythonError e), [])
  | .ok requires_python =>
  match effective_python_request w python_request requires_python with
  | (.error e, ev) => (.error (.python e), ev)
  | (.ok request, ev0) =>
  let ev1 := ev0 ++ [Event.findEnvironment]
  let fetch : List Event → Except ProjectError FoundInterpreter × List Event := fun ev =>
    match w.findOrFetchResult request with
    | .error e => (.error (.python e), ev ++ [.findOrFetch request])
    | .ok interp =>
      let ev := ev ++ [Event.findOrFetch request,
        Event.usingInterpreterLine interp.pythonVersion interp.sysExecutable]
      match requires_python with
      | some rp =>
        if rp.containsVersion interp.pythonVersion then
          (.ok (.interpreter interp), ev)
        else
          (.error (.requestedPythonIncompatibility interp.pythonVersion rp), ev)
      | none => (.ok (.interpreter interp), ev)
  match w.findEnv with
  | .found venv =>
    if interpreter_meets_requirements w venv.interpreter request then
      match requires_python with
      | some rp =>
        if rp.containsVersion venv.interpreter.pythonVersion then
          (.ok (.environment venv), ev1)
        else fetch ev1
      | none => (.ok (.environment venv), ev1)
    else fetch ev1
  | .missingEnvironment => fetch ev1
  | .interpreterNotFound path => fetch (ev1 ++ [.warnStaleVenv path])
  | .otherError e => (.error (.python e), ev1)

/-- Whether the venv probe of `discover` falls through to `find_or_fetch`:
the environment is missing, points at a deleted interpreter, or exists but
fails the effective request or the project requirement. A hard probe error
aborts instead. -/
def falls_through_to_fetch (w : DiscoverWorld) (request : Option PythonRequest)
    (requires_python : Option RequiresPython) : Bool :=
  match w.findEnv with
  | .found venv =>
    if interpreter_meets_requirements w venv.interpreter request then
      match requires_python with
      | some rp => !rp.containsVersion venv.interpreter.pythonVersion
      | none => false
    else true
  | .missingEnvironment => true
  | .interpreterNotFound _ => true
  | .otherError _ => false

/-- Outcome of `fs_err::remove_dir_all` on the venv path. -/
inductive RemoveDirResult
  | removed
  | notFound
  | otherError (e : String)

/-- Collaborator oracles of `get_or_init_environment`: the discovery world,
the result of removing the stale venv directory, and `uv_virtualenv::create_venv`. -/
structure InitEnvWorld where
  discoverWorld : DiscoverWorld
  removeDirAll : RemoveDirResult
  createVenv : Interpreter → Except String PythonEnvironment

/-- Model of `get_or_init_environment` (crates/uv/src/commands/project/mod.rs lines
250-307): return an existing compatible environment unchanged; otherwise
remove the stale venv directory (a not-found error is tolerated, any other
removal error propagates) and create a fresh virtual environment on the
discovered interpreter with `Prompt::None` and both boolean flags
(`system_site_packages`, `allow_existing`) false. -/
def get_or_init_environment (w : InitEnvWorld) (python : Option PythonRequest) :
    Except ProjectError PythonEnvironment × List Event :=
  match FoundInterpreter.discover w.discoverWorld python with
  | (.error e, ev) => (.error e, ev)
  -- If we found an existing, compatible environment, use it.
  | (.ok (.environment environment), ev) => (.ok environment, ev)
  -- Otherwise, create a virtual environment with the discovered interpreter.
  | (.ok (.interpreter interp), ev) =>
    let create : List Event → Except ProjectError PythonEnvironment × List Event := fun ev =>
      match w.createVenv interp with
      | .error e =>
        (.error (.virtualenv e), ev ++ [.createVenvCall interp .noPrompt false false])
      | .ok venv => (.ok venv, ev ++ [.createVenvCall interp .noPrompt false false])
    match w.removeDirAll with
    | .removed => create (ev ++ [.removeVenvDir, .removedLine])
    | .notFound => create (ev ++ [.removeVenvDir])
    | .otherError e => (.error (.io e), ev ++ [.removeVenvDir])

/-- Collaborator oracles of `update_environment`:
`SitePackages::from_environment`, `Interpreter::tags`, the flat-index fetch,
the resolver (`pip::operations::resolve`) and the installer
(`pip::operations::install`). -/
structure UpdateWorld where
  fromEnvironment : PythonEnvironment → Except String SitePackages
  tags : Except String Unit
  flatIndexFetch : Except String Unit
  resolveResult : Except String Resolution
  installResult : Resolution → Except String Unit

/-- Model of `update_environment` (crates/uv/src/commands/project/mod.rs lines
619-793): read the environment's site-packages; when the spec has no source
trees and neither reinstall nor upgrade is requested, consult the
satisfaction check and return the environment unchanged on `Fresh`;
otherwise resolve the requirements (passing the current site-packages as
preferences) and install the resolution into the environment. -/
def update_environment (w : UpdateWorld) (venv : PythonEnvironment)
    (spec : RequirementsSpecification) (settings : ResolverInstallerSettings) :
    Except String PythonEnvironment × List Event :=
  -- Check if the current environment satisfies the requirements
  match w.fromEnvironment venv with
  | .error e => (.error e, [.querySitePackages])
  | .ok site_packages =>
  let ev0 := [Event.querySitePackages]
  let proceed : List Event → Except String PythonEnvironment × List Event := fun ev =>
    match w.tags with
    | .error e => (.error e, ev)
    | .ok _ =>
    match w.flatIndexFetch with
    | .error e => (.error e, ev ++ [.fetchFlatIndex])
    | .ok _ =>
    -- Resolve the requirements.
    match w.resolveResult with
    | .error e => (.error e, ev ++ [.fetchFlatIndex, .resolveCall])
    | .ok resolution =>
    -- Sync the environment.
    match w.installResult resolution with
    | .error e => (.error e, ev ++ [.fetchFlatIndex, .resolveCall, .installCall])
    | .ok _ => (.ok venv, ev ++ [.fetchFlatIndex, .resolveCall, .installCall, .diagnose])
  if spec.source_trees.isEmpty && settings.reinstall.is_none && settings.upgrade.is_none then
    match site_packages.satisfies spec.requirements spec.constraints with
    | .error e => (.error e, ev0 ++ [.satisfiesCheck])
    -- If the requirements are already satisfied, we're done.
    | .ok (.fresh _) => (.ok venv, ev0 ++ [.satisfiesCheck])
    | .ok (.unsatisfied _) => proceed (ev0 ++ [.satisfiesCheck])
  else proceed ev0

/-- Outcome of `tokio::process::Command::spawn`. -/
inductive SpawnResult
  | spawned
  | errNotFound
  | errOther (e : String)

/-- Collaborator oracles of `run` / `get_or_create_environment`
(crates/uv/src/commands/tool/run.rs): request parsing and satisfaction,
interpreter discovery, the two `resolve_requirements` calls, the
installed-tools registry and its lock, site-packages snapshots,
`CachedEnvironment::get_or_create`, the inherited environment variables,
`matching_packages`, the spawn outcome, the child wait outcome, the
`entrypoint_paths` lookup, and the two external string parsers used by
`parse_target`. -/
structure ToolWorld where
  parseRequest : String → PythonRequest
  requestSatisfied : PythonRequest → Interpreter → Bool
  findOrFetchResult : Option PythonRequest → Except String Interpreter
  resolveFrom : String → Except String Requirement
  resolveWith : List String → Except String (List Requirement)
  initInstalledTools : Except String Unit
  acquireLock : Except String Unit
  getToolEnvironment : String → Except String (Option PythonEnvironment)
  sitePackagesOf : PythonEnvironment → Except String SitePackages
  cachedGetOrCreate : List Requirement → Interpreter → Except String PythonEnvironment
  inheritedPath : Option (List String)
  inheritedPythonPath : Option (List String)
  spawn : SpawnResult
  waitSuccess : Except String Bool
  entrypointPaths : String → Version → Except String (List (String × String))

/-- The filter applied to a registered tool environment
(crates/uv/src/commands/tool/run.rs lines 362-366): keep it only when the
explicit python request, if any, is satisfied by its interpreter. -/
def tool_request_ok (w : ToolWorld) (python_request : Option PythonRequest)
    (environment : PythonEnvironment) : Bool :=
  match python_request with
  | none => true
  | some request => w.requestSatisfied request environment.interpreter

/-- Model of `get_or_create_environment` (crates/uv/src/commands/tool/run.rs lines
274-406): discover an interpreter, resolve the `from` requirement and the
`with` requirements; unless isolation is forced, acquire the installed-tools
lock, look up an environment registered under the `from` package's name,
keep it only when its interpreter satisfies the explicit python request, and
reuse it when its site-packages already `Fresh`-satisfy the combined
requirement set (a failing satisfaction check falls through, but a failing
site-packages read propagates); otherwise resolve and synchronize a cached
ephemeral environment. The advisory lock is released on every exit path of
the lookup block. -/
def get_or_create_environment (w : ToolWorld) (fromSpec : String) (withSpecs : List String)
    (python : Option String) (isolated : Bool) :
    Except String (Requirement × PythonEnvironment) × List Event :=
  let python_request := python.map w.parseRequest
  -- Discover an interpreter.
  match w.findOrFetchResult python_request with
  | .error e => (.error e, [.findOrFetchInterpreter])
  | .ok interp =>
  let ev := [Event.findOrFetchInterpreter]
  -- Resolve the `from` requirement.
  match w.resolveFrom fromSpec with
  | .error e => (.error e, ev ++ [.resolveFromReq])
  | .ok fromReq =>
  let ev := ev ++ [Event.resolveFromReq]
  -- Combine the `from` and `with` requirements.
  match w.resolveWith withSpecs with
  | .error e => (.error e, ev ++ [.resolveWithReqs])
  | .ok withReqs =>
  let ev := ev ++ [Event.resolveWithReqs]
  let requirements := fromReq :: withReqs
  let cachedPath : List Event → Except String (Requirement × PythonEnvironment) × List Event :=
    fun ev =>
      match w.cachedGetOrCreate requirements interp with
      | .error e => (.error e, ev ++ [.cachedEnvGetOrCreate])
      | .ok environment => (.ok (fromReq, environment), ev ++ [.cachedEnvGetOrCreate])
  -- Check if the tool is already installed in a compatible environment.
  if isolated then cachedPath ev
  else
    match w.initInstalledTools with
    | .error e => (.error e, ev)
    | .ok _ =>
    match w.acquireLock with
    | .error e => (.error e, ev)
    | .ok _ =>
    let ev := ev ++ [Event.acquireToolLock]
    match w.getToolEnvironment fromReq.name with
    | .error e => (.error e, ev ++ [.toolLookup fromReq.name, .releaseToolLock])
    | .ok envOpt =>
    let ev := ev ++ [Event.toolLookup fromReq.name]
    let existing := envOpt.filter fun environment =>
      tool_request_ok w python_request environment
    match existing with
    | none => cachedPath (ev ++ [.releaseToolLock])
    | some environment =>
      -- Check if the installed packages meet the requirements.
      match w.sitePackagesOf environment with
      | .error e => (.error e, ev ++ [.releaseToolLock])
      | .ok site_packages =>
      let ev := ev ++ [Event.satisfiesCheck]
      match site_packages.satisfies requirements [] with
      | .ok (.fresh _) =>
        (.ok (fromReq, environment),
          ev ++ [.debugUsingExistingTool fromReq.name, .releaseToolLock])
      | _ => cachedPath (ev ++ [.releaseToolLock])

/-- Model of `get_entrypoints` (crates/uv/src/commands/tool/run.rs lines 196-212):
read the environment's site-packages, take the first installed distribution
of the `from` package (failing when there is none), and look up its
entry-point paths. -/
def get_entrypoints (w : ToolWorld) (fromName : String)
    (environment : PythonEnvironment) : Except String (List (String × String)) :=
  match w.sitePackagesOf environment with
  | .error e => .error e
  | .ok site_packages =>
    let installed := site_packages.get_packages fromName
    match installed.head? with
    | none => .error "Expected at least one requirement"
    | some installed_dist => w.entrypointPaths installed_dist.1 installed_dist.2

/-- Model of `std::env::join_paths` over our list-of-paths model of environment
variables: the identity on path lists, failing exactly when a path contains
the separator. -/
def join_paths (paths : List String) : Except String (List String) :=
  if paths.all fun p => !p.toList.contains ':' then .ok paths
  else .error "JoinPathsError"

/-- Model of `run` (crates/uv/src/commands/tool/run.rs lines 54-193): split the
command into target and arguments, derive the executable and the `from`
requirement spec (via `parse_target` when no explicit `from` is given), get
or create a compatible environment, build the child process with the
environment's script directory prepended to the inherited `PATH`, its
site-packages directories prepended to the inherited `PYTHONPATH`, and all
three standard streams inherited, then spawn it. A spawn failure of kind
not-found is reported through the `from` package's entry points and yields a
failure exit status (unless the entry-point lookup itself fails, in which
case the original error propagates with context); every other spawn failure
propagates with context. The exit status mirrors the child's success. -/
def run (w : ToolWorld) (command : List OsStr) (fromOpt : Option String)
    (withSpecs : List String) (python : Option String) (isolated : Bool) :
    Except String ExitStatus × List Event :=
  let ev0 := [Event.warnExperimental]
  match command with
  | [] => (.error "No tool command provided", ev0)
  | target :: args =>
  let parsed : Except String (OsStr × String) :=
    match fromOpt with
    | some fromSpec => .ok (target, fromSpec)
    | none => parse_target specPackageNameFromStr specVersionFromStr target
  match parsed with
  | .error e => (.error e, ev0)
  | .ok (target, fromSpec) =>
  -- Get or create a compatible environment in which to execute the tool.
  match get_or_create_environment w fromSpec withSpecs python isolated with
  | (.error e, ev) => (.error e, ev0 ++ ev)
  | (.ok (fromReq, environment), ev) =>
  let ev := ev0 ++ ev
  let executable := target
  -- Construct the `PATH` environment variable.
  match join_paths (environment.scripts :: (w.inheritedPath.getD [])) with
  | .error e => (.error e, ev)
  | .ok newPath =>
  -- Construct the `PYTHONPATH` environment variable.
  match join_paths (environment.sitePackagesDirs ++ (w.inheritedPythonPath.getD [])) with
  | .error e => (.error e, ev)
  | .ok newPythonPath =>
  let process : ProcessSpec :=
    { program := executable, args := args,
      envPath := newPath, envPythonPath := newPythonPath,
      stdin := .inherit, stdout := .inherit, stderr := .inherit }
  let ev := ev ++ [Event.warnExecutableCheck executable.lossy fromReq.name,
    Event.spawnProcess process]
  match w.spawn with
  | .spawned =>
    match w.waitSuccess with
    | .error _ => (.error "Child process disappeared", ev)
    | .ok true => (.ok .success, ev)
    | .ok false => (.ok .failure, ev)
  | .errNotFound =>
    match get_entrypoints w fromReq.name environment with
    | .ok entrypoints =>
      (.ok .failure,
        ev ++ [Event.printNotFound executable.lossy]
          ++ (if entrypoints.isEmpty then []
              else [Event.printEntrypoints fromReq.name (entrypoints.map Prod.fst)]))
    | .error _ =>
      (.error ("Failed to spawn: " ++ executable.lossy), ev ++ [.warnEntrypointsFailed])
  | .errOther _ => (.error ("Failed to spawn: " ++ executable.lossy), ev)

/-! Concrete fixtures used by witnesses. -/

/-- A concrete interpreter at Python 3.12. -/
def interp312 : Interpreter := ⟨"3.12", "/usr/bin/python3.12"⟩

/-- A concrete interpreter at Python 3.8. -/
def interp38 : Interpreter := ⟨"3.8", "/usr/bin/python3.8"⟩

/-- A concrete environment owning `interp312`. -/
def env312 : PythonEnvironment :=
  ⟨interp312, "/venv/bin", ["/venv/lib/python3.12/site-packages"]⟩

/-- A concrete `Requires-Python` range satisfied exactly by version `3.12`. -/
def rp312 : RequiresPython := ⟨">=3.12", fun v => v == "3.12"⟩

/-! Helper lemmas. -/

/-- The effective-request computation reads at most the version file. -/
theorem effective_python_request_events (w : DiscoverWorld)
    (python_request : Option PythonRequest) (requires_python : Option RequiresPython) :
    (effective_python_request w python_request requires_python).2 = [] ∨
      (effective_python_request w python_request requires_python).2 = [.readVersionFile] := by
  cases python_request with
  | some request => exact Or.inl rfl
  | none =>
    cases h : w.versionFileRequest with
    | error e => exact Or.inr (by simp [effective_python_request, h])
    | ok o => cases o <;> exact Or.inr (by simp [effective_python_request, h])

/-- A successful `join_paths` returns its input list. -/
theorem join_paths_ok (l p : List String) (h : join_paths l = .ok p) : p = l := by
  unfold join_paths at h
  split at h
  · injection h with h2; exact h2.symm
  · cases h

/-! Claims. -/

/-- Claim C5: `parse_target` maps `name@version` with a valid package name and
a valid version to the executable `name` and the requirement string
`name==version`; a target with an empty segment after `@`, an invalid version
after `@`, or an invalid package name before `@` is returned unchanged as
both the command and the requirement string, as is a target containing no `@`. -/
theorem claim_C5_parse_target (pn vp : String → Option String)
    (s name version canon : String) :
    (split_once s '@' = some (name, version) →
      ((version ≠ "" → pn name = some canon → vp version = some version →
          parse_target pn vp (.utf8 s) = .ok (.utf8 name, name ++ "==" ++ version)) ∧
        (version = "" → parse_target pn vp (.utf8 s) = .ok (.utf8 s, s)) ∧
        (version ≠ "" → vp version = none →
          parse_target pn vp (.utf8 s) = .ok (.utf8 s, s)) ∧
        (version ≠ "" → pn name = none →
          parse_target pn vp (.utf8 s) = .ok (.utf8 s, s)))) ∧
    (split_once s '@' = none → parse_target pn vp (.utf8 s) = .ok (.utf8 s, s)) := by
  constructor
  · intro hsplit
    refine ⟨fun hne hpn hvp => ?_, fun he => ?_, fun hne hvp => ?_, fun hne hpn => ?_⟩
    · simp [parse_target, OsStr.toStr, hsplit, hne, hpn, hvp]
    · simp [parse_target, OsStr.toStr, hsplit, he]
    · cases hpn : pn name with
      | none => simp [parse_target, OsStr.toStr, hsplit, hne, hpn]
      | some c => simp [parse_target, OsStr.toStr, hsplit, hne, hpn, hvp]
    · simp [parse_target, OsStr.toStr, hsplit, hne, hpn]
  · intro hsplit
    simp [parse_target, OsStr.toStr, hsplit]

/-- Witness for C5 at the spec's own example: `tool@1.2.3` becomes executable
`tool` with requirement `tool==1.2.3`. -/
theorem claim_C5_witness :
    parse_target specPackageNameFromStr specVersionFromStr (.utf8 "tool@1.2.3")
      = .ok (.utf8 "tool", "tool==1.2.3") :=
  ((claim_C5_parse_target specPackageNameFromStr specVersionFromStr
      "tool@1.2.3" "tool" "1.2.3" "tool").1 rfl).1 (by decide) rfl rfl

/-- Claim C3: the effective Python version request is chosen by strict
priority: the explicit user request (the version file is then not read);
otherwise the request from the local version file; otherwise the project's
declared `Requires-Python` range, or no request when the project declares
none. `FoundInterpreter.discover` computes its request with this function. -/
theorem claim_C3_request_priority (w : DiscoverWorld)
    (requires_python : Option RequiresPython) :
    (∀ request, effective_python_request w (some request) requires_python
        = (.ok (some request), [])) ∧
    (∀ request, w.versionFileRequest = .ok (some request) →
      effective_python_request w none requires_python
        = (.ok (some request), [.readVersionFile])) ∧
    (w.versionFileRequest = .ok none →
      effective_python_request w none requires_python
        = (.ok (requires_python.map fun rp => PythonRequest.versionRange rp.specifiers),
            [.readVersionFile])) := by
  refine ⟨fun request => rfl, fun request h => ?_, fun h => ?_⟩ <;>
    simp [effective_python_request, h]

/-- A discovery world with no explicit request, an empty version file, a
missing conventional environment, and a fetchable 3.12 interpreter. -/
def discoverWorldNoFile : DiscoverWorld :=
  { findRequiresPython := .ok (some rp312)
    versionFileRequest := .ok none
    findEnv := .missingEnvironment
    requestSatisfied := fun _ _ => false
    findOrFetchResult := fun _ => .ok interp312 }

/-- Witness for C3: with no explicit request and an empty version file, the
effective request is the project's `Requires-Python` range. -/
theorem claim_C3_witness :
    effective_python_request discoverWorldNoFile none (some rp312)
      = (.ok (some (PythonRequest.versionRange ">=3.12")), [.readVersionFile]) :=
  (claim_C3_request_priority discoverWorldNoFile (some rp312)).2.2 rfl

/-- Claim C10: a tool-run invocation whose target command is not valid UTF-8
and that names no explicit `from` package fails with the `--from` guidance
error before any environment work or process launch: the result is that
error, and the trace holds only the experimental warning. -/
theorem claim_C10_non_utf8_target (w : ToolWorld) (tag : Nat) (args : List OsStr)
    (withSpecs : List String) (python : Option String) (isolated : Bool) :
    run w (OsStr.nonUtf8 tag :: args) none withSpecs python isolated
      = (.error utf8ErrorMsg, [Event.warnExperimental]) := rfl

/-- Claim C4: when an environment exists at the conventional venv path and its
interpreter satisfies both the effective request and the project's
`Requires-Python` (when declared), `discover` returns that environment and
never calls find-or-fetch; when either check fails, discovery falls through
to find-or-fetch. -/
theorem claim_C4_existing_env_reuse (w : DiscoverWorld)
    (python_request request : Option PythonRequest)
    (requires_python : Option RequiresPython) (venv : PythonEnvironment) (ev0 : List Event)
    (hrp : w.findRequiresPython = .ok requires_python)
    (heff : effective_python_request w python_request requires_python = (.ok request, ev0))
    (henv : w.findEnv = .found venv) :
    ((interpreter_meets_requirements w venv.interpreter request = true ∧
        ∀ rp, requires_python = some rp →
          rp.containsVersion venv.interpreter.pythonVersion = true) →
      FoundInterpreter.discover w python_request
          = (.ok (.environment venv), ev0 ++ [Event.findEnvironment]) ∧
        ∀ r, Event.findOrFetch r ∉ (FoundInterpreter.discover w python_request).2) ∧
    ((interpreter_meets_requirements w venv.interpreter request = false ∨
        ∃ rp, requires_python = some rp ∧
          rp.containsVersion venv.interpreter.pythonVersion = false) →
      Event.findOrFetch request ∈ (FoundInterpreter.discover w python_request).2) := by
  have hev0 : ev0 = [] ∨ ev0 = [.readVersionFile] := by
    have h := effective_python_request_events w python_request requires_python
    rw [heff] at h; exact h
  constructor
  · rintro ⟨hmeet, hcont⟩
    have hd : FoundInterpreter.discover w python_request
        = (.ok (.environment venv), ev0 ++ [Event.findEnvironment]) := by
      cases hq : requires_python with
      | none => simp [FoundInterpreter.discover, hrp, hq ▸ heff, henv, hmeet, hq]
      | some rp =>
        simp [FoundInterpreter.discover, hrp, hq ▸ heff, henv, hmeet, hq, hcont rp hq]
    refine ⟨hd, fun r => ?_⟩
    rw [hd]
    rcases hev0 with h0 | h0 <;> subst h0 <;> simp
  · intro hfail
    have hfetchmem : ∀ ev : List Event,
        Event.findOrFetch request ∈ ev ++ [Event.findOrFetch request] := by
      intro ev; simp
    rcases hfail with hmeet | ⟨rp, hq, hcont⟩
    · simp only [FoundInterpreter.discover, hrp, heff, henv, hmeet]
      cases hf : w.findOrFetchResult request with
      | error e => simp [hf]
      | ok i =>
        cases hq : requires_python with
        | none => simp [hf, hq]
        | some rp => cases hcv : rp.containsVersion i.pythonVersion <;> simp [hf, hq, hcv]
    · subst hq
      cases hmeet : interpreter_meets_requirements w venv.interpreter request with
      | true =>
        simp only [FoundInterpreter.discover, hrp, heff, henv, hmeet, hcont]
        cases hf : w.findOrFetchResult request with
        | error e => simp [hf]
        | ok i => cases hcv : rp.containsVersion i.pythonVersion <;> simp [hf, hcv]
      | false =>
        simp only [FoundInterpreter.discover, hrp, heff, henv, hmeet]
        cases hf : w.findOrFetchResult request with
        | error e => simp [hf]
        | ok i => cases hcv : rp.containsVersion i.pythonVersion <;> simp [hf, hcv]

/-- A discovery world whose conventional-path environment owns a 3.12
interpreter compatible with everything. -/
def discoverWorldVenv : DiscoverWorld :=
  { findRequiresPython := .ok (some rp312)
    versionFileRequest := .ok none
    findEnv := .found env312
    requestSatisfied := fun _ i => i.pythonVersion == "3.12"
    findOrFetchResult := fun _ => .ok interp312 }

/-- Witness for C4: the compatible existing environment is returned and
find-or-fetch is never called. -/
theorem claim_C4_witness :
    FoundInterpreter.discover discoverWorldVenv none
        = (.ok (.environment env312), [.readVersionFile, Event.findEnvironment]) ∧
      ∀ r, Event.findOrFetch r ∉ (FoundInterpreter.discover discoverWorldVenv none).2 :=
  (claim_C4_existing_env_reuse discoverWorldVenv none
      (some (.versionRange ">=3.12")) (some rp312) env312 [.readVersionFile]
      rfl rfl rfl).1 ⟨rfl, fun rp h => by cases h; rfl⟩

/-- Claim C8: when discovery falls through to fetching an interpreter and the
fetched interpreter's version is not contained in the project's declared
`Requires-Python`, `discover` fails with the typed
`RequestedPythonIncompatibility` error carrying the found version and the
requirement. -/
theorem claim_C8_requested_python_incompatibility (w : DiscoverWorld)
    (python_request request : Option PythonRequest) (rp : RequiresPython)
    (i : Interpreter) (ev0 : List Event)
    (hrp : w.findRequiresPython = .ok (some rp))
    (heff : effective_python_request w python_request (some rp) = (.ok request, ev0))
    (hfall : falls_through_to_fetch w request (some rp) = true)
    (hfetch : w.findOrFetchResult request = .ok i)
    (hver : rp.containsVersion i.pythonVersion = false) :
    (FoundInterpreter.discover w python_request).1
      = .error (.requestedPythonIncompatibility i.pythonVersion rp) := by
  cases henv : w.findEnv with
  | found venv =>
    unfold falls_through_to_fetch at hfall
    rw [henv] at hfall
    cases hmeet : interpreter_meets_requirements w venv.interpreter request with
    | true =>
      simp only [hmeet, if_true, Bool.not_eq_true'] at hfall
      simp [FoundInterpreter.discover, hrp, heff, henv, hmeet, hfall, hfetch, hver]
    | false =>
      simp [FoundInterpreter.discover, hrp, heff, henv, hmeet, hfetch, hver]
  | missingEnvironment =>
    simp [FoundInterpreter.discover, hrp, heff, henv, hfetch, hver]
  | interpreterNotFound p =>
    simp [FoundInterpreter.discover, hrp, heff, henv, hfetch, hver]
  | otherError e =>
    simp [falls_through_to_fetch, henv] at hfall

/-- A discovery world with no conventional environment where fetch yields a
Python 3.8 interpreter against a `>=3.12` project requirement. -/
def discoverWorldFetch38 : DiscoverWorld :=
  { findRequiresPython := .ok (some rp312)
    versionFileRequest := .ok none
    findEnv := .missingEnvironment
    requestSatisfied := fun _ _ => false
    findOrFetchResult := fun _ => .ok interp38 }

/-- Witness for C8: fetching a 3.8 interpreter against `Requires-Python >=3.12`
fails with the typed incompatibility error carrying both. -/
theorem claim_C8_witness :
    (FoundInterpreter.discover discoverWorldFetch38 none).1
      = .error (.requestedPythonIncompatibility "3.8" rp312) :=
  claim_C8_requested_python_incompatibility discoverWorldFetch38 none
    (some (.versionRange ">=3.12")) rp312 interp38 [.readVersionFile]
    rfl rfl rfl rfl rfl

/-- Claim C6: `get_or_init_environment` returns an environment found by
discovery unchanged; on a bare interpreter it removes the directory at the
venv path (treating not-found as success, propagating any other removal
error) and then creates a fresh virtual environment on that interpreter with
no prompt customization and system-site-packages disabled. -/
theorem claim_C6_get_or_init (w : InitEnvWorld) (python : Option PythonRequest) :
    (∀ env tr, FoundInterpreter.discover w.discoverWorld python = (.ok (.environment env), tr) →
      get_or_init_environment w python = (.ok env, tr)) ∧
    (∀ i tr, FoundInterpreter.discover w.discoverWorld python = (.ok (.interpreter i), tr) →
      (∀ venv, w.removeDirAll = .removed → w.createVenv i = .ok venv →
        get_or_init_environment w python
          = (.ok venv, tr ++ [.removeVenvDir, .removedLine,
              .createVenvCall i .noPrompt false false])) ∧
      (∀ venv, w.removeDirAll = .notFound → w.createVenv i = .ok venv →
        get_or_init_environment w python
          = (.ok venv, tr ++ [.removeVenvDir,
              .createVenvCall i .noPrompt false false])) ∧
      (∀ e, w.removeDirAll = .otherError e →
        get_or_init_environment w python = (.error (.io e), tr ++ [.removeVenvDir]))) := by
  constructor
  · intro env tr hd
    simp [get_or_init_environment, hd]
  · intro i tr hd
    refine ⟨fun venv hr hc => ?_, fun venv hr hc => ?_, fun e hr => ?_⟩
    · simp [get_or_init_environment, hd, hr, hc]
    · simp [get_or_init_environment, hd, hr, hc]
    · simp [get_or_init_environment, hd, hr]

/-- An init-environment world whose discovery yields a bare 3.12 interpreter,
with no stale directory to remove and a successful venv creation. -/
def initEnvWorld0 : InitEnvWorld :=
  { discoverWorld := discoverWorldNoFile
    removeDirAll := .notFound
    createVenv := fun _ => .ok env312 }

/-- Witness for C6: a bare interpreter leads to removal (not-found tolerated)
followed by creation with `Prompt::None` and system-site-packages disabled. -/
theorem claim_C6_witness :
    get_or_init_environment initEnvWorld0 none
      = (.ok env312,
          [.readVersionFile, Event.findEnvironment,
            .findOrFetch (some (.versionRange ">=3.12")),
            .usingInterpreterLine "3.12" "/usr/bin/python3.12",
            .removeVenvDir, .createVenvCall interp312 .noPrompt false false]) :=
  ((claim_C6_get_or_init initEnvWorld0 none).2 interp312
      [.readVersionFile, Event.findEnvironment,
        .findOrFetch (some (.versionRange ">=3.12")),
        .usingInterpreterLine "3.12" "/usr/bin/python3.12"]
      rfl).2.1 env312 rfl rfl

/-- Claim C1: when the requirement spec has no source-tree requirements and
neither reinstall nor upgrade is requested, a `Fresh` satisfaction check
makes `update_environment` return the environment unchanged with no
resolution and no installation call; when any gating condition fails, the
satisfaction check is not consulted and resolution proceeds. -/
theorem claim_C1_update_environment (w : UpdateWorld) (venv : PythonEnvironment)
    (spec : RequirementsSpecification) (settings : ResolverInstallerSettings)
    (sp : SitePackages) (hsp : w.fromEnvironment venv = .ok sp) :
    ((spec.source_trees.isEmpty && settings.reinstall.is_none
        && settings.upgrade.is_none) = true →
      ∀ c, sp.satisfies spec.requirements spec.constraints = .ok (.fresh c) →
        update_environment w venv spec settings
          = (.ok venv, [Event.querySitePackages, Event.satisfiesCheck])) ∧
    ((spec.source_trees.isEmpty && settings.reinstall.is_none
        && settings.upgrade.is_none) = false →
      Event.satisfiesCheck ∉ (update_environment w venv spec settings).2 ∧
      (w.tags = .ok () → w.flatIndexFetch = .ok () →
        Event.resolveCall ∈ (update_environment w venv spec settings).2)) := by
  constructor
  · intro hg c hf
    simp [update_environment, hsp, hg, hf]
  · intro hg
    constructor
    · simp only [update_environment, hsp, hg]
      cases ht : w.tags with
      | error e => simp [ht]
      | ok u =>
        cases hfi : w.flatIndexFetch with
        | error e => simp [ht, hfi]
        | ok u2 =>
          cases hr : w.resolveResult with
          | error e => simp [ht, hfi, hr]
          | ok res =>
            cases hi : w.installResult res with
            | error e => simp [ht, hfi, hr, hi]
            | ok u3 => simp [ht, hfi, hr, hi]
    · intro ht hfi
      simp only [update_environment, hsp, hg, ht, hfi]
      cases hr : w.resolveResult with
      | error e => simp [ht, hfi, hr]
      | ok res =>
        cases hi : w.installResult res with
        | error e => simp [ht, hfi, hr, hi]
        | ok u3 => simp [ht, hfi, hr, hi]

/-- A site-packages snapshot that `Fresh`-satisfies every requirement set. -/
def freshSP : SitePackages := ⟨fun _ _ => .ok (.fresh []), fun _ => []⟩

/-- An update world whose environment already satisfies everything. -/
def updateWorldFresh : UpdateWorld :=
  { fromEnvironment := fun _ => .ok freshSP
    tags := .ok ()
    flatIndexFetch := .ok ()
    resolveResult := .ok ⟨0⟩
    installResult := fun _ => .ok () }

/-- A requirement spec with one requirement and no source trees. -/
def blackSpec : RequirementsSpecification :=
  { requirements := [⟨"black", 0⟩], constraints := [], overrides := []
    source_trees := [], project := none }

/-- Witness for C1: on `Fresh` with all gates open, the environment comes back
unchanged after only the site-packages query and the satisfaction check. -/
theorem claim_C1_witness :
    update_environment updateWorldFresh env312 blackSpec ⟨.noReinstall, .noUpgrade⟩
      = (.ok env312, [Event.querySitePackages, Event.satisfiesCheck]) :=
  (claim_C1_update_environment updateWorldFresh env312 blackSpec ⟨.noReinstall, .noUpgrade⟩
      freshSP rfl).1 rfl [] rfl

/-- Claim C2: with isolation not forced and the shared prefix succeeding,
`get_or_create_environment` reuses an installed-tool environment verbatim —
skipping the cached resolve-and-synchronize path — if and only if an
environment is registered under the `from` package's name, its interpreter
satisfies the explicit python request (or none was made), and its
site-packages `Fresh`-satisfy the combined requirement set; in the reuse
case the registry lookup and the satisfaction check happen strictly between
the advisory-lock acquisition and its release. -/
theorem claim_C2_tool_reuse (w : ToolWorld) (fromSpec : String) (withSpecs : List String)
    (python : Option String) (interp : Interpreter) (fromReq : Requirement)
    (withReqs : List Requirement)
    (h1 : w.findOrFetchResult (python.map w.parseRequest) = .ok interp)
    (h2 : w.resolveFrom fromSpec = .ok fromReq)
    (h3 : w.resolveWith withSpecs = .ok withReqs)
    (h4 : w.initInstalledTools = .ok ())
    (h5 : w.acquireLock = .ok ()) :
    ((∃ env, (get_or_create_environment w fromSpec withSpecs python false).1
          = .ok (fromReq, env) ∧
        Event.cachedEnvGetOrCreate
          ∉ (get_or_create_environment w fromSpec withSpecs python false).2)
      ↔ ∃ env sp c, w.getToolEnvironment fromReq.name = .ok (some env) ∧
          tool_request_ok w (python.map w.parseRequest) env = true ∧
          w.sitePackagesOf env = .ok sp ∧
          sp.satisfies (fromReq :: withReqs) [] = .ok (.fresh c)) ∧
    (∀ env sp c, w.getToolEnvironment fromReq.name = .ok (some env) →
      tool_request_ok w (python.map w.parseRequest) env = true →
      w.sitePackagesOf env = .ok sp →
      sp.satisfies (fromReq :: withReqs) [] = .ok (.fresh c) →
      get_or_create_environment w fromSpec withSpecs python false
        = (.ok (fromReq, env),
            [.findOrFetchInterpreter, .resolveFromReq, .resolveWithReqs,
              .acquireToolLock, .toolLookup fromReq.name, Event.satisfiesCheck,
              .debugUsingExistingTool fromReq.name, .releaseToolLock])) := by
  have hreuse : ∀ env sp c, w.getToolEnvironment fromReq.name = .ok (some env) →
      tool_request_ok w (python.map w.parseRequest) env = true →
      w.sitePackagesOf env = .ok sp →
      sp.satisfies (fromReq :: withReqs) [] = .ok (.fresh c) →
      get_or_create_environment w fromSpec withSpecs python false
        = (.ok (fromReq, env),
            [.findOrFetchInterpreter, .resolveFromReq, .resolveWithReqs,
              .acquireToolLock, .toolLookup fromReq.name, Event.satisfiesCheck,
              .debugUsingExistingTool fromReq.name, .releaseToolLock]) := by
    intro env sp c hg hok hsp hsat
    simp [get_or_create_environment, h1, h2, h3, h4, h5, hg, Option.filter, hok, hsp, hsat]
  refine ⟨⟨?_, ?_⟩, hreuse⟩
  · rintro ⟨env, hres, hnot⟩
    cases hg : w.getToolEnvironment fromReq.name with
    | error e =>
      simp [get_or_create_environment, h1, h2, h3, h4, h5, hg] at hres
    | ok envOpt =>
      cases envOpt with
      | none =>
        cases hc : w.cachedGetOrCreate (fromReq :: withReqs) interp with
        | error e =>
          simp [get_or_create_environment, h1, h2, h3, h4, h5, hg, Option.filter, hc] at hres
        | ok env2 =>
          simp [get_or_create_environment, h1, h2, h3, h4, h5, hg, Option.filter, hc] at hnot
      | some env0 =>
        cases hok : tool_request_ok w (python.map w.parseRequest) env0 with
        | false =>
          cases hc : w.cachedGetOrCreate (fromReq :: withReqs) interp with
          | error e =>
            simp [get_or_create_environment, h1, h2, h3, h4, h5, hg, Option.filter,
              hok, hc] at hres
          | ok env2 =>
            simp [get_or_create_environment, h1, h2, h3, h4, h5, hg, Option.filter,
              hok, hc] at hnot
        | true =>
          cases hsp : w.sitePackagesOf env0 with
          | error e =>
            simp [get_or_create_environment, h1, h2, h3, h4, h5, hg, Option.filter,
              hok, hsp] at hres
          | ok sp =>
            cases hsat : sp.satisfies (fromReq :: withReqs) [] with
            | error e =>
              cases hc : w.cachedGetOrCreate (fromReq :: withReqs) interp with
              | error e2 =>
                simp [get_or_create_environment, h1, h2, h3, h4, h5, hg, Option.filter,
                  hok, hsp, hsat, hc] at hres
              | ok env2 =>
                simp [get_or_create_environment, h1, h2, h3, h4, h5, hg, Option.filter,
                  hok, hsp, hsat, hc] at hnot
            | ok sr =>
              cases sr with
              | fresh c => exact ⟨env0, sp, c, rfl, hok, hsp, hsat⟩
              | unsatisfied r =>
                cases hc : w.cachedGetOrCreate (fromReq :: withReqs) interp with
                | error e2 =>
                  simp [get_or_create_environment, h1, h2, h3, h4, h5, hg, Option.filter,
                    hok, hsp, hsat, hc] at hres
                | ok env2 =>
                  simp [get_or_create_environment, h1, h2, h3, h4, h5, hg, Option.filter,
                    hok, hsp, hsat, hc] at hnot
  · rintro ⟨env, sp, c, hg, hok, hsp, hsat⟩
    refine ⟨env, ?_, ?_⟩
    · rw [hreuse env sp c hg hok hsp hsat]
    · rw [hreuse env sp c hg hok hsp hsat]
      simp

/-- The `black` requirement produced by name resolution. -/
def blackReq : Requirement := ⟨"black", 1⟩

/-- A tool world in which `black` is registered with a compatible 3.12
environment whose installed set satisfies everything. -/
def toolWorldInstalled : ToolWorld :=
  { parseRequest := fun _ => .other 0
    requestSatisfied := fun _ i => i.pythonVersion == "3.12"
    findOrFetchResult := fun _ => .ok interp312
    resolveFrom := fun _ => .ok blackReq
    resolveWith := fun _ => .ok []
    initInstalledTools := .ok ()
    acquireLock := .ok ()
    getToolEnvironment := fun n => if n == "black" then .ok (some env312) else .ok none
    sitePackagesOf := fun _ => .ok freshSP
    cachedGetOrCreate := fun _ _ => .ok env312
    inheritedPath := some ["/usr/bin"]
    inheritedPythonPath := none
    spawn := .spawned
    waitSuccess := .ok true
    entrypointPaths := fun _ _ => .ok [] }

/-- Witness for C2: the installed `black` environment is reused verbatim,
between lock acquisition and release, with no cached-environment build. -/
theorem claim_C2_witness :
    get_or_create_environment toolWorldInstalled "black" [] none false
      = (.ok (blackReq, env312),
          [.findOrFetchInterpreter, .resolveFromReq, .resolveWithReqs,
            .acquireToolLock, .toolLookup "black", Event.satisfiesCheck,
            .debugUsingExistingTool "black", .releaseToolLock]) :=
  (claim_C2_tool_reuse toolWorldInstalled "black" [] none interp312 blackReq []
      rfl rfl rfl rfl rfl).2 env312 freshSP [] rfl rfl rfl rfl

/-- Claim C7: when spawning the tool executable fails with an OS not-found
error, `run` looks up the `from` package's entry points and, when that lookup
succeeds, reports the missing executable together with those entry points and
returns a failure exit status; when the lookup itself fails, the original
spawn error propagates with context, as does a launch failure of any other
kind. -/
theorem claim_C7_spawn_not_found (w : ToolWorld) (target : OsStr) (args : List OsStr)
    (fromSpec : String) (withSpecs : List String) (python : Option String)
    (isolated : Bool) (fromReq : Requirement) (environment : PythonEnvironment)
    (ev : List Event) (p1 p2 : List String)
    (hge : get_or_create_environment w fromSpec withSpecs python isolated
      = (.ok (fromReq, environment), ev))
    (hp1 : join_paths (environment.scripts :: (w.inheritedPath.getD [])) = .ok p1)
    (hp2 : join_paths (environment.sitePackagesDirs ++ (w.inheritedPythonPath.getD []))
      = .ok p2) :
    (w.spawn = .errNotFound →
      ∀ eps, get_entrypoints w fromReq.name environment = .ok eps →
        (run w (target :: args) (some fromSpec) withSpecs python isolated).1
            = .ok .failure ∧
          Event.printNotFound target.lossy
            ∈ (run w (target :: args) (some fromSpec) withSpecs python isolated).2 ∧
          (eps ≠ [] → Event.printEntrypoints fromReq.name (eps.map Prod.fst)
            ∈ (run w (target :: args) (some fromSpec) withSpecs python isolated).2)) ∧
    (w.spawn = .errNotFound →
      ∀ e, get_entrypoints w fromReq.name environment = .error e →
        (run w (target :: args) (some fromSpec) withSpecs python isolated).1
          = .error ("Failed to spawn: " ++ target.lossy)) ∧
    (∀ e, w.spawn = .errOther e →
      (run w (target :: args) (some fromSpec) withSpecs python isolated).1
        = .error ("Failed to spawn: " ++ target.lossy)) := by
  refine ⟨fun hs eps hep => ?_, fun hs e hep => ?_, fun e hs => ?_⟩
  · refine ⟨?_, ?_, fun hne => ?_⟩
    · simp [run, hge, hp1, hp2, hs, hep]
    · simp [run, hge, hp1, hp2, hs, hep]
    · cases eps with
      | nil => exact absurd rfl hne
      | cons hd tl => simp [run, hge, hp1, hp2, hs, hep]
  · simp [run, hge, hp1, hp2, hs, hep]
  · simp [run, hge, hp1, hp2, hs]

/-- Claim C9: the spawned child process carries `PATH` equal to the
environment's script directory prepended to the inherited search path,
`PYTHONPATH` equal to the environment's site-packages directories prepended
to any inherited value, and all three standard streams inherited. -/
theorem claim_C9_child_process_env (w : ToolWorld) (target : OsStr) (args : List OsStr)
    (fromSpec : String) (withSpecs : List String) (python : Option String)
    (isolated : Bool) (fromReq : Requirement) (environment : PythonEnvironment)
    (ev : List Event) (p1 p2 : List String)
    (hge : get_or_create_environment w fromSpec withSpecs python isolated
      = (.ok (fromReq, environment), ev))
    (hp1 : join_paths (environment.scripts :: (w.inheritedPath.getD [])) = .ok p1)
    (hp2 : join_paths (environment.sitePackagesDirs ++ (w.inheritedPythonPath.getD []))
      = .ok p2) :
    Event.spawnProcess
        { program := target, args := args
          envPath := environment.scripts :: (w.inheritedPath.getD [])
          envPythonPath := environment.sitePackagesDirs ++ (w.inheritedPythonPath.getD [])
          stdin := .inherit, stdout := .inherit, stderr := .inherit }
      ∈ (run w (target :: args) (some fromSpec) withSpecs python isolated).2 := by
  have e1 := join_paths_ok _ _ hp1
  have e2 := join_paths_ok _ _ hp2
  subst e1; subst e2
  cases hs : w.spawn with
  | spawned =>
    cases hw : w.waitSuccess with
    | error e => simp [run, hge, hp1, hp2, hs, hw]
    | ok b => cases b <;> simp [run, hge, hp1, hp2, hs, hw]
  | errNotFound =>
    cases hep : get_entrypoints w fromReq.name environment with
    | error e => simp [run, hge, hp1, hp2, hs, hep]
    | ok eps => simp [run, hge, hp1, hp2, hs, hep]
  | errOther e => simp [run, hge, hp1, hp2, hs]

/-- A site-packages snapshot whose `black` package is installed at 24.0 and
which satisfies every requirement set. -/
def blackInstalledSP : SitePackages :=
  ⟨fun _ _ => .ok (.fresh []), fun n => if n == "black" then [("black", "24.0")] else []⟩

/-- The tool world of `toolWorldInstalled`, with a not-found spawn failure
and a `black` entry point registered. -/
def toolWorldNotFound : ToolWorld :=
  { toolWorldInstalled with
      spawn := .errNotFound
      sitePackagesOf := fun _ => .ok blackInstalledSP
      entrypointPaths := fun _ _ => .ok [("black", "/venv/bin/black")] }

/-- Witness for C7: a not-found spawn failure with a successful entry-point
lookup yields a failure exit status and the missing-executable report. -/
theorem claim_C7_witness :
    (run toolWorldNotFound [.utf8 "blck"] (some "black") [] none false).1
        = .ok .failure ∧
      Event.printNotFound "blck"
        ∈ (run toolWorldNotFound [.utf8 "blck"] (some "black") [] none false).2 :=
  ⟨((claim_C7_spawn_not_found toolWorldNotFound (.utf8 "blck") [] "black" [] none false
        blackReq env312
        [.findOrFetchInterpreter, .resolveFromReq, .resolveWithReqs,
          .acquireToolLock, .toolLookup "black", Event.satisfiesCheck,
          .debugUsingExistingTool "black", .releaseToolLock]
        ["/venv/bin", "/usr/bin"] ["/venv/lib/python3.12/site-packages"]
        rfl rfl rfl).1 rfl [("black", "/venv/bin/black")] rfl).1,
    ((claim_C7_spawn_not_found toolWorldNotFound (.utf8 "blck") [] "black" [] none false
        blackReq env312
        [.findOrFetchInterpreter, .resolveFromReq, .resolveWithReqs,
          .acquireToolLock, .toolLookup "black", Event.satisfiesCheck,
          .debugUsingExistingTool "black", .releaseToolLock]
        ["/venv/bin", "/usr/bin"] ["/venv/lib/python3.12/site-packages"]
        rfl rfl rfl).1 rfl [("black", "/venv/bin/black")] rfl).2.1⟩

/-- Witness for C9: the spawned process carries the prepended `PATH` and
`PYTHONPATH` and inherited streams. -/
theorem claim_C9_witness :
    Event.spawnProcess
        { program := .utf8 "black", args := []
          envPath := ["/venv/bin", "/usr/bin"]
          envPythonPath := ["/venv/lib/python3.12/site-packages"]
          stdin := .inherit, stdout := .inherit, stderr := .inherit }
      ∈ (run toolWorldInstalled [.utf8 "black"] (some "black") [] none false).2 :=
  claim_C9_child_process_env toolWorldInstalled (.utf8 "black") [] "black" [] none false
    blackReq env312
    [.findOrFetchInterpreter, .resolveFromReq, .resolveWithReqs,
      .acquireToolLock, .toolLookup "black", Event.satisfiesCheck,
      .debugUsingExistingTool "black", .releaseToolLock]
    ["/venv/bin", "/usr/bin"] ["/venv/lib/python3.12/site-packages"]
    rfl rfl rfl

end Uv
